import Mathlib

/-!
Verification of the orchestration logic of `generate_mask.py` (DOSMA mask
generation CLI).

The program is sequential glue around five external collaborators (volume
loader, preprocessor, segmentation model, mask writer, T2 mapping routine).
We embed the orchestrator shallowly: the collaborators are an abstract
record of pure functions (`Collab`), the filesystem is a predicate
`isdir : String → Bool`, and every side effect the orchestrator performs is
recorded in an event trace (`List Event`).  Python exceptions become an
explicit error type; a Python `dict` (which preserves insertion order)
becomes an association list `List (String × Volume)`.
-/

set_option autoImplicit false

namespace GenerateMask

/-- A 3-D volume: its shape plus an abstract payload tag that lets distinct
volumes be told apart.  The orchestrator only ever inspects `shape`. -/
structure Volume where
  shape : List Nat
  data : Nat
deriving DecidableEq, Repr

/-- Reference DICOM metadata returned by the loader; opaque to the
orchestrator, modelled as a tag. -/
abbrev RefDicom := Nat

/-- A per-tissue T2 summary returned by `dess_utils.get_tissue_t2`; opaque
to the orchestrator, modelled as a tag. -/
abbrev T2Summary := Nat

/-- The external collaborator modules (`utils`, `models`, `dess_utils`,
`im_utils`) as black-box pure functions, per the collaborator interfaces:
loader, echo splitter, whitener, segmentation model, T2 map calculator and
T2 summary extractor.  `im_utils.write_3d` has no return value and is
recorded only as a trace event. -/
structure Collab where
  load_dicom : String → Option String → Volume × RefDicom
  split_volume : Volume → Nat → List Volume
  whiten_volume : Volume → Volume
  seg_mask : Volume → String → Volume
  calc_dess_t2_map : Volume → RefDicom → Volume
  get_tissue_t2 : Volume → Volume → String → T2Summary

/-- Observable side effects of one run, in program order.  Console prints
are not modelled. -/
inductive Event where
  | setEnvCudaVisibleDevices (gpu : String)
  | makedirs (path : String)
  | loadDicom (path : String) (ext : Option String)
  | segmentCall (tissue : String) (input : Volume)
  | writeFile (path : String) (mask : Volume)
  | calcT2Map (vol : Volume) (ref : RefDicom)
  | setBatchSize (b : Int)
deriving DecidableEq, Repr

/-- The exceptions `parse_args` can terminate with, one constructor per
distinct `raise` site (plus the `IndexError` from `subvolumes[0]` on an
empty split, and the `TypeError` from calling a bool). -/
inductive Err where
  | valueErrorNoDicom
  | notADirectoryError (path : String)
  | valueErrorT2WithoutDess
  | assertionError
  | indexError
  | typeErrorBoolNotCallable
deriving DecidableEq, Repr

/-- Result of `generate_mask`: either the completed tissue→mask mapping, or
the state at the point the shape assertion failed (which tissue tripped it
and which masks had been accumulated by then), or an `IndexError` from
`subvolumes[0]`. -/
inductive GMResult where
  | ok (masks : List (String × Volume))
  | assertFailed (tissue : String) (masksSoFar : List (String × Volume))
  | indexError
deriving DecidableEq, Repr

/-- `os.path.join(dir, file)` for the relative, non-empty components the
program builds (the tissue name suffixed with ".tiff"). -/
def joinPath (dir file : String) : String := dir ++ "/" ++ file

/-- Modelled from the spec: `models.FEMORAL_CARTILAGE_STR` (the `models`
module is an external collaborator, not in the repository); the spec names
the file written for this tissue `femoral_cartilage.tiff`. -/
def FEMORAL_CARTILAGE_STR : String := "femoral_cartilage"

/-- Modelled from the spec: `models.TIBIAL_CARTILAGE_STR`. -/
def TIBIAL_CARTILAGE_STR : String := "tibial_cartilage"

/-- Modelled from the spec: `models.MENISCUS_STR`; the spec names the file
written for this tissue `meniscus.tiff`. -/
def MENISCUS_STR : String := "meniscus"

/-- Modelled from the spec: `models.PATELLAR_CARTILAGE_STR`. -/
def PATELLAR_CARTILAGE_STR : String := "patellar_cartilage"

/-- Modelled from the spec: `dess_utils.NUM_ECHOS`, the fixed echo count of
a DESS acquisition (2). -/
def NUM_ECHOS : Nat := 2

/-- The `for tissue in tissue_strs` loop of `generate_mask` (lines 31-41):
segment each tissue with the (already whitened) `volume`, assert the mask
shape equals the volume shape, write `<save_path>/<tissue>.tiff`, and
accumulate the mask into the ordered mapping.  An assertion failure aborts
the loop before the write for that tissue. -/
def segLoop (C : Collab) (save_path : String) (volume : Volume) :
    List String → List (String × Volume) → List Event × GMResult
  | [], masks => ([], GMResult.ok masks)
  | t :: ts, masks =>
    let mask := C.seg_mask volume t
    if volume.shape = mask.shape then
      let rest := segLoop C save_path volume ts (masks ++ [(t, mask)])
      (Event.segmentCall t volume ::
        Event.writeFile (joinPath save_path (t ++ ".tiff")) mask :: rest.1,
       rest.2)
    else
      ([Event.segmentCall t volume], GMResult.assertFailed t masks)

/-- `generate_mask(dicom_path, save_path, tissue_strs, dicom_ext, echos)`
(lines 12-42): load the DICOM series, split into `echos` sub-volumes, take
sub-volume 0 (`subvolumes[0]`; an empty split would raise `IndexError`),
whiten it, then run the per-tissue segmentation loop. -/
def generate_mask (C : Collab) (dicom_path save_path : String)
    (tissue_strs : List String) (dicom_ext : Option String) (echos : Nat) :
    List Event × GMResult :=
  let volume0 := (C.load_dicom dicom_path dicom_ext).1
  let subvolumes := C.split_volume volume0 echos
  match subvolumes.head? with
  | none => ([Event.loadDicom dicom_path dicom_ext], GMResult.indexError)
  | some v0 =>
    let volume := C.whiten_volume v0
    let rest := segLoop C save_path volume tissue_strs []
    (Event.loadDicom dicom_path dicom_ext :: rest.1, rest.2)

/-- `calculate_t2_maps(dicom_path, save_path, dicom_ext, masks)` (lines
45-57): reload the raw volume and reference metadata, compute the T2 map
from them, and extract one summary per tissue key of `masks`, preserving
key order.  `save_path` is accepted and unused, as in the source. -/
def calculate_t2_maps (C : Collab) (dicom_path : String) (save_path : String)
    (dicom_ext : Option String) (masks : List (String × Volume)) :
    List Event × List (String × T2Summary) :=
  let loaded := C.load_dicom dicom_path dicom_ext
  let t2_map := C.calc_dess_t2_map loaded.1 loaded.2
  ([Event.loadDicom dicom_path dicom_ext, Event.calcT2Map loaded.1 loaded.2],
   masks.map (fun p => (p.1, C.get_tissue_t2 t2_map p.2 p.1)))

/-- The command-line arguments after argparse, one field per flag.  The
four tissue flags are `store_const` actions whose const is the tissue
string; we record flag presence as a Bool and reapply the const in
`tissue_strs_of`. -/
structure Args where
  dicom : Option String
  save : String
  ext : Option String
  f : Bool
  t : Bool
  m : Bool
  p : Bool
  dess : Bool
  t2 : Bool
  batch_size : Int
  gpu : Option String
deriving DecidableEq, Repr

/-- Lines 143-146: collect the consts of the tissue flags that were given,
dropping `None`s; when none were given, default to all four tissues in the
fixed order femoral, tibial, meniscus, patellar. -/
def tissue_strs_of (a : Args) : List String :=
  let l := ([if a.f then some FEMORAL_CARTILAGE_STR else none,
             if a.t then some TIBIAL_CARTILAGE_STR else none,
             if a.m then some MENISCUS_STR else none,
             if a.p then some PATELLAR_CARTILAGE_STR else none]).filterMap id
  if l.isEmpty then
    [FEMORAL_CARTILAGE_STR, TIBIAL_CARTILAGE_STR, MENISCUS_STR,
     PATELLAR_CARTILAGE_STR]
  else l

/-- `parse_args()` (lines 60-152), after argparse has produced `a`.  In
order: apply the GPU id to the environment; extract the dicom path
(`ValueError` when absent); default the save path to the dicom path;
require the dicom path to be a directory (`NotADirectoryError`); create the
save directory when missing; reject `--t2` without `--dess` (`ValueError`);
set the echo count and batch size; run `generate_mask`; and finally, when
`--dess` and `--t2` are both set, attempt the T2 flow.  Line 130 rebinds
the name `calculate_t2_maps` to the boolean `args.t2`, shadowing the
module-level function inside `parse_args`, so the call on line 152 invokes
a bool and raises `TypeError` — the shadowing `let` below reproduces this. -/
def parse_args (C : Collab) (isdir : String → Bool) (a : Args) :
    List Event × Except Err Unit :=
  let gpuEvents : List Event :=
    match a.gpu with
    | some g => [Event.setEnvCudaVisibleDevices g]
    | none => []
  match a.dicom with
  | none => (gpuEvents, Except.error Err.valueErrorNoDicom)
  | some dicom_path =>
    let save_path := if a.save = "" then dicom_path else a.save
    if isdir dicom_path = false then
      (gpuEvents, Except.error (Err.notADirectoryError dicom_path))
    else
      let mkEvents : List Event :=
        if isdir save_path = false then [Event.makedirs save_path] else []
      let dess := a.dess
      let calculate_t2_maps := a.t2
      if dess = false ∧ calculate_t2_maps = true then
        (gpuEvents ++ mkEvents, Except.error Err.valueErrorT2WithoutDess)
      else
        let num_echos := if dess then NUM_ECHOS else 1
        let bsEvents : List Event := [Event.setBatchSize a.batch_size]
        let gm := generate_mask C dicom_path save_path (tissue_strs_of a)
          a.ext num_echos
        let evs := gpuEvents ++ mkEvents ++ bsEvents ++ gm.1
        match gm.2 with
        | GMResult.indexError => (evs, Except.error Err.indexError)
        | GMResult.assertFailed _ _ => (evs, Except.error Err.assertionError)
        | GMResult.ok _ =>
          if dess = true ∧ calculate_t2_maps = true then
            (evs, Except.error Err.typeErrorBoolNotCallable)
          else
            (evs, Except.ok ())

/-- The paths of the `writeFile` events of a trace, in order. -/
def writtenPaths (evs : List Event) : List String :=
  evs.filterMap (fun e =>
    match e with
    | Event.writeFile fp _ => some fp
    | _ => none)

end GenerateMask

namespace GenerateMask

theorem segLoop_writeFile_shape (C : Collab) (sp : String) (v : Volume) :
    ∀ (ts : List String) (masks : List (String × Volume)) (fp : String)
      (m : Volume),
      Event.writeFile fp m ∈ (segLoop C sp v ts masks).1 → m.shape = v.shape := by
  intro ts
  induction ts with
  | nil => intro masks fp m h; simp [segLoop] at h
  | cons t ts ih =>
    intro masks fp m h
    by_cases hsh : v.shape = (C.seg_mask v t).shape
    · simp only [segLoop, if_pos hsh, List.mem_cons] at h
      rcases h with h | h | h
      · exact absurd h (by simp)
      · cases h; exact hsh.symm
      · exact ih _ fp m h
    · simp only [segLoop, if_neg hsh, List.mem_cons, List.not_mem_nil,
        or_false] at h
      exact absurd h (by simp)

theorem segLoop_seg_input (C : Collab) (sp : String) (v : Volume) :
    ∀ (ts : List String) (masks : List (String × Volume)) (t : String)
      (vin : Volume),
      Event.segmentCall t vin ∈ (segLoop C sp v ts masks).1 → vin = v := by
  intro ts
  induction ts with
  | nil => intro masks t vin h; simp [segLoop] at h
  | cons t0 ts ih =>
    intro masks t vin h
    by_cases hsh : v.shape = (C.seg_mask v t0).shape
    · simp only [segLoop, if_pos hsh, List.mem_cons] at h
      rcases h with h | h | h
      · cases h; rfl
      · exact absurd h (by simp)
      · exact ih _ t vin h
    · simp only [segLoop, if_neg hsh, List.mem_cons, List.not_mem_nil,
        or_false] at h
      cases h; rfl

theorem segLoop_no_calcT2 (C : Collab) (sp : String) (v : Volume) :
    ∀ (ts : List String) (masks : List (String × Volume)) (vol : Volume)
      (r : RefDicom),
      Event.calcT2Map vol r ∉ (segLoop C sp v ts masks).1 := by
  intro ts
  induction ts with
  | nil => intro masks vol r h; simp [segLoop] at h
  | cons t0 ts ih =>
    intro masks vol r h
    by_cases hsh : v.shape = (C.seg_mask v t0).shape
    · simp only [segLoop, if_pos hsh, List.mem_cons] at h
      rcases h with h | h | h
      · exact absurd h (by simp)
      · exact absurd h (by simp)
      · exact ih _ vol r h
    · simp only [segLoop, if_neg hsh, List.mem_cons, List.not_mem_nil,
        or_false] at h
      exact absurd h (by simp)

theorem segLoop_ok_spec (C : Collab) (sp : String) (v : Volume) :
    ∀ (ts : List String) (masks ms : List (String × Volume)),
      (segLoop C sp v ts masks).2 = GMResult.ok ms →
      ms = masks ++ ts.map (fun t => (t, C.seg_mask v t)) ∧
      writtenPaths (segLoop C sp v ts masks).1 =
        ts.map (fun t => joinPath sp (t ++ ".tiff")) ∧
      ∀ t ∈ ts, (C.seg_mask v t).shape = v.shape := by
  intro ts
  induction ts with
  | nil =>
    intro masks ms h
    simp [segLoop] at h
    simp [segLoop, writtenPaths, h]
  | cons t0 ts ih =>
    intro masks ms h
    by_cases hsh : v.shape = (C.seg_mask v t0).shape
    · simp only [segLoop, if_pos hsh] at h
      obtain ⟨h1, h2, h3⟩ := ih (masks ++ [(t0, C.seg_mask v t0)]) ms h
      refine ⟨by simpa using h1, ?_, ?_⟩
      · simp only [segLoop, if_pos hsh, writtenPaths, List.filterMap_cons,
          List.map_cons]
        simpa [writtenPaths] using h2
      · intro t ht
        rcases List.mem_cons.1 ht with rfl | ht
        · exact hsh.symm
        · exact h3 t ht
    · simp [segLoop, if_neg hsh] at h

theorem segLoop_fail_spec (C : Collab) (sp : String) (v : Volume)
    (t0 : String) (hbad : (C.seg_mask v t0).shape ≠ v.shape) :
    ∀ (pre post : List String) (masks : List (String × Volume)),
      (∀ t ∈ pre, (C.seg_mask v t).shape = v.shape) →
      (segLoop C sp v (pre ++ t0 :: post) masks).2 =
        GMResult.assertFailed t0
          (masks ++ pre.map (fun t => (t, C.seg_mask v t))) ∧
      writtenPaths (segLoop C sp v (pre ++ t0 :: post) masks).1 =
        pre.map (fun t => joinPath sp (t ++ ".tiff")) := by
  intro pre
  induction pre with
  | nil =>
    intro post masks _
    have hsh : ¬ v.shape = (C.seg_mask v t0).shape := fun h => hbad h.symm
    simp [segLoop, if_neg hsh, writtenPaths]
  | cons t1 pre ih =>
    intro post masks hpre
    have hsh : v.shape = (C.seg_mask v t1).shape :=
      (hpre t1 (List.mem_cons_self _ _)).symm
    have hpre' : ∀ t ∈ pre, (C.seg_mask v t).shape = v.shape :=
      fun t ht => hpre t (List.mem_cons_of_mem _ ht)
    obtain ⟨h1, h2⟩ := ih post (masks ++ [(t1, C.seg_mask v t1)]) hpre'
    constructor
    · simp only [List.cons_append, segLoop, if_pos hsh]
      simpa using h1
    · simp only [List.cons_append, segLoop, if_pos hsh, writtenPaths,
        List.filterMap_cons, List.map_cons]
      simpa [writtenPaths] using h2

end GenerateMask

namespace GenerateMask

theorem map_fst_pair {α β : Type} (f : α → β) (l : List α) :
    (l.map (fun t => (t, f t))).map Prod.fst = l := by
  induction l with
  | nil => rfl
  | cons x xs ih => simp [ih]

theorem generate_mask_no_calcT2 (C : Collab) (dp sp : String)
    (ts : List String) (de : Option String) (echos : Nat) (vol : Volume)
    (r : RefDicom) :
    Event.calcT2Map vol r ∉ (generate_mask C dp sp ts de echos).1 := by
  intro h
  cases hv : (C.split_volume (C.load_dicom dp de).1 echos).head? with
  | none => simp [generate_mask, hv] at h
  | some v0 =>
    simp only [generate_mask, hv, List.mem_cons] at h
    rcases h with h | h
    · exact absurd h (by simp)
    · exact segLoop_no_calcT2 C sp _ ts [] vol r h

theorem generate_mask_ok_spec (C : Collab) (dp sp : String)
    (ts : List String) (de : Option String) (echos : Nat)
    (ms : List (String × Volume))
    (hok : (generate_mask C dp sp ts de echos).2 = GMResult.ok ms) :
    ms.map Prod.fst = ts ∧
    writtenPaths (generate_mask C dp sp ts de echos).1 =
      ts.map (fun t => joinPath sp (t ++ ".tiff")) := by
  cases hv : (C.split_volume (C.load_dicom dp de).1 echos).head? with
  | none => simp [generate_mask, hv] at hok
  | some v0 =>
    simp only [generate_mask, hv] at hok ⊢
    obtain ⟨h1, h2, _⟩ :=
      segLoop_ok_spec C sp (C.whiten_volume v0) ts [] ms hok
    constructor
    · subst h1; simpa using map_fst_pair _ ts
    · simpa [writtenPaths] using h2

/-- A concrete, well-behaved set of collaborators used to instantiate the
theorems below: the loader returns a 2x2x2 volume, the splitter returns
`n` sub-volumes of the same shape, and the segmentation model returns a
mask of the same shape as its input. -/
def demoCollab : Collab where
  load_dicom := fun _ _ => (⟨[2, 2, 2], 0⟩, 5)
  split_volume := fun v n => (List.range n).map (fun i => ⟨v.shape, i + 1⟩)
  whiten_volume := fun v => ⟨v.shape, v.data + 10⟩
  seg_mask := fun v _ => ⟨v.shape, 3⟩
  calc_dess_t2_map := fun v r => ⟨v.shape, v.data + r⟩
  get_tissue_t2 := fun _ _ t => t.length

/-- Like `demoCollab`, except the segmentation model returns a mask of the
wrong shape for the meniscus, to exercise the shape assertion. -/
def badCollab : Collab :=
  { demoCollab with
    seg_mask := fun v t => if t = MENISCUS_STR then ⟨[], 0⟩ else ⟨v.shape, 3⟩ }

/-- A concrete filesystem in which only `/data` is a directory. -/
def demoFS : String → Bool := fun s => s = "/data"

/-- A concrete argument vector: `-d /data -s /out --dess --t2`. -/
def demoArgs : Args :=
  { dicom := some "/data", save := "/out", ext := none, f := false,
    t := false, m := false, p := false, dess := true, t2 := true,
    batch_size := 32, gpu := none }

/-- The mapping `demoCollab` produces for the default (all-tissue) run. -/
def demoMasks : List (String × Volume) :=
  [FEMORAL_CARTILAGE_STR, TIBIAL_CARTILAGE_STR, MENISCUS_STR,
   PATELLAR_CARTILAGE_STR].map (fun t => (t, ⟨[2, 2, 2], 3⟩))

end GenerateMask

namespace GenerateMask

/-- C4: for every tissue processed by `generate_mask`, a mask whose shape
differs from the whitened first-echo input volume halts processing (the
result is never `ok`) before any file is written for that tissue, and every
file that is written holds a mask whose shape equals the input shape. -/
theorem generate_mask_shape_assertion (C : Collab) (dp sp : String)
    (ts : List String) (de : Option String) (echos : Nat) (v0 : Volume)
    (hv : (C.split_volume (C.load_dicom dp de).1 echos).head? = some v0) :
    (∀ fp m, Event.writeFile fp m ∈ (generate_mask C dp sp ts de echos).1 →
      m.shape = (C.whiten_volume v0).shape) ∧
    ((∃ t ∈ ts, (C.seg_mask (C.whiten_volume v0) t).shape ≠
        (C.whiten_volume v0).shape) →
      ∀ ms, (generate_mask C dp sp ts de echos).2 ≠ GMResult.ok ms) := by
  constructor
  · intro fp m hm
    simp only [generate_mask, hv, List.mem_cons] at hm
    rcases hm with h | h
    · exact absurd h (by simp)
    · exact segLoop_writeFile_shape C sp _ ts [] fp m h
  · rintro ⟨t, ht, hbad⟩ ms hok
    simp only [generate_mask, hv] at hok
    exact hbad ((segLoop_ok_spec C sp _ ts [] ms hok).2.2 t ht)

theorem generate_mask_shape_assertion_witness :
    (generate_mask badCollab "/data" "/out" [MENISCUS_STR] none
      NUM_ECHOS).2 ≠ GMResult.ok [] :=
  (generate_mask_shape_assertion badCollab "/data" "/out" [MENISCUS_STR]
    none NUM_ECHOS ⟨[2, 2, 2], 1⟩ (by decide)).2 (by decide) []

/-- C5: when `generate_mask` is run on the tissue list derived from the
CLI flags and completes, the keys of the returned mapping are exactly the
requested tissue identifiers; with no tissue flag given, the requested list
is all four tissues in the fixed canonical order. -/
theorem generate_mask_keys (C : Collab) (dp sp : String)
    (de : Option String) (echos : Nat) (a : Args)
    (ms : List (String × Volume))
    (hok : (generate_mask C dp sp (tissue_strs_of a) de echos).2 =
      GMResult.ok ms) :
    ms.map Prod.fst = tissue_strs_of a ∧
    (a.f = false → a.t = false → a.m = false → a.p = false →
      tissue_strs_of a =
        [FEMORAL_CARTILAGE_STR, TIBIAL_CARTILAGE_STR, MENISCUS_STR,
         PATELLAR_CARTILAGE_STR]) := by
  constructor
  · exact (generate_mask_ok_spec C dp sp (tissue_strs_of a) de echos ms
      hok).1
  · intro hf ht hm hp
    simp [tissue_strs_of, hf, ht, hm, hp]

theorem generate_mask_keys_witness :
    demoMasks.map Prod.fst = tissue_strs_of demoArgs :=
  (generate_mask_keys demoCollab "/data" "/out" none NUM_ECHOS demoArgs
    demoMasks (by decide)).1

/-- C6: every segmentation call made by `generate_mask` receives the
whitened sub-volume of index 0 of the echo split, for every tissue and
every echo count. -/
theorem generate_mask_segmentation_input (C : Collab) (dp sp : String)
    (ts : List String) (de : Option String) (echos : Nat) (v0 : Volume)
    (hv : (C.split_volume (C.load_dicom dp de).1 echos).head? = some v0) :
    ∀ t vin, Event.segmentCall t vin ∈ (generate_mask C dp sp ts de echos).1 →
      vin = C.whiten_volume v0 := by
  intro t vin h
  simp only [generate_mask, hv, List.mem_cons] at h
  rcases h with h | h
  · exact absurd h (by simp)
  · exact segLoop_seg_input C sp _ ts [] t vin h

theorem generate_mask_segmentation_input_witness :
    (⟨[2, 2, 2], 11⟩ : Volume) = demoCollab.whiten_volume ⟨[2, 2, 2], 1⟩ :=
  (generate_mask_segmentation_input demoCollab "/data" "/out" [MENISCUS_STR]
    none NUM_ECHOS ⟨[2, 2, 2], 1⟩ (by decide)) MENISCUS_STR ⟨[2, 2, 2], 11⟩
    (by decide)

/-- C7: `calculate_t2_maps` returns a summary mapping whose key list equals
the key list of the mask mapping it was given, and the T2 map it uses is
computed by `calc_dess_t2_map` from the raw loaded volume (not split, not
whitened) together with the reference DICOM metadata. -/
theorem calculate_t2_maps_keys_and_raw_volume (C : Collab)
    (dp sp : String) (de : Option String)
    (masks : List (String × Volume)) :
    (calculate_t2_maps C dp sp de masks).2.map Prod.fst =
      masks.map Prod.fst ∧
    (calculate_t2_maps C dp sp de masks).1 =
      [Event.loadDicom dp de,
       Event.calcT2Map (C.load_dicom dp de).1 (C.load_dicom dp de).2] := by
  constructor
  · simp [calculate_t2_maps, Function.comp]
  · rfl

/-- C10: when the first `i - 1` requested tissues segment with the correct
shape and tissue `i` does not, `generate_mask` stops at tissue `i` with
exactly the first `i - 1` masks accumulated, and exactly the files of those
first `i - 1` tissues written. -/
theorem generate_mask_incremental_writes (C : Collab) (dp sp : String)
    (de : Option String) (echos : Nat) (v0 : Volume) (pre post : List String)
    (t0 : String)
    (hv : (C.split_volume (C.load_dicom dp de).1 echos).head? = some v0)
    (hpre : ∀ t ∈ pre, (C.seg_mask (C.whiten_volume v0) t).shape =
      (C.whiten_volume v0).shape)
    (hbad : (C.seg_mask (C.whiten_volume v0) t0).shape ≠
      (C.whiten_volume v0).shape) :
    (generate_mask C dp sp (pre ++ t0 :: post) de echos).2 =
      GMResult.assertFailed t0
        (pre.map (fun t => (t, C.seg_mask (C.whiten_volume v0) t))) ∧
    writtenPaths (generate_mask C dp sp (pre ++ t0 :: post) de echos).1 =
      pre.map (fun t => joinPath sp (t ++ ".tiff")) := by
  obtain ⟨h1, h2⟩ := segLoop_fail_spec C sp (C.whiten_volume v0) t0 hbad
    pre post [] hpre
  constructor
  · simp only [generate_mask, hv]
    simpa using h1
  · simp only [generate_mask, hv, writtenPaths, List.filterMap_cons]
    simpa [writtenPaths] using h2

theorem generate_mask_incremental_writes_witness :
    (generate_mask badCollab "/data" "/out"
      [FEMORAL_CARTILAGE_STR, MENISCUS_STR, PATELLAR_CARTILAGE_STR] none
      NUM_ECHOS).2 =
      GMResult.assertFailed MENISCUS_STR
        [(FEMORAL_CARTILAGE_STR, ⟨[2, 2, 2], 3⟩)] ∧
    writtenPaths (generate_mask badCollab "/data" "/out"
      [FEMORAL_CARTILAGE_STR, MENISCUS_STR, PATELLAR_CARTILAGE_STR] none
      NUM_ECHOS).1 = ["/out/femoral_cartilage.tiff"] :=
  generate_mask_incremental_writes badCollab "/data" "/out" none NUM_ECHOS
    ⟨[2, 2, 2], 1⟩ [FEMORAL_CARTILAGE_STR] [PATELLAR_CARTILAGE_STR]
    MENISCUS_STR (by decide) (by decide) (by decide)

end GenerateMask

namespace GenerateMask

theorem writtenPaths_append (l1 l2 : List Event) :
    writtenPaths (l1 ++ l2) = writtenPaths l1 ++ writtenPaths l2 :=
  List.filterMap_append l1 l2 _

/-- An invocation with `--t2` set, `--dess` unset and no dicom path. -/
def noDicomArgs : Args :=
  { dicom := none, save := "", ext := none, f := false, t := false,
    m := false, p := false, dess := false, t2 := true, batch_size := 32,
    gpu := none }

/-- `-d /data --t2`: t2 without dess, valid dicom path, default save. -/
def t2OnlyArgs : Args :=
  { dicom := some "/data", save := "", ext := none, f := false, t := false,
    m := false, p := false, dess := false, t2 := true, batch_size := 32,
    gpu := none }

/-- `-d /nope`: a dicom path that is not a directory in `demoFS`. -/
def badDirArgs : Args :=
  { dicom := some "/nope", save := "", ext := none, f := false, t := false,
    m := false, p := false, dess := false, t2 := false, batch_size := 32,
    gpu := none }

/-- `-d /data -s /out --t2`: t2 without dess, save dir needs creation. -/
def t2SaveArgs : Args :=
  { dicom := some "/data", save := "/out", ext := none, f := false,
    t := false, m := false, p := false, dess := false, t2 := true,
    batch_size := 32, gpu := none }

/-- C1: with `--dess` and `--t2` both set and mask generation completed,
`parse_args` does NOT reach the T2 flow: line 130 has rebound the name of
the T2 routine to the boolean `args.t2`, so the call on line 152 raises
`TypeError` and no T2-map computation ever happens. -/
theorem parse_args_t2_flow_never_invoked (C : Collab)
    (isdir : String → Bool) (a : Args) (p : String)
    (ms : List (String × Volume)) (hd : a.dicom = some p)
    (hdir : isdir p = true) (hdess : a.dess = true) (ht2 : a.t2 = true)
    (hok : (generate_mask C p (if a.save = "" then p else a.save)
      (tissue_strs_of a) a.ext NUM_ECHOS).2 = GMResult.ok ms) :
    (parse_args C isdir a).2 = Except.error Err.typeErrorBoolNotCallable ∧
    ∀ vol r, Event.calcT2Map vol r ∉ (parse_args C isdir a).1 := by
  constructor
  · simp [parse_args, hd, hdir, hdess, ht2, hok]
  · intro vol r h
    rcases hg : a.gpu with _ | g <;>
      rcases hs : isdir (if a.save = "" then p else a.save) <;>
      simp [parse_args, hd, hdir, hdess, ht2, hok, hg, hs] at h <;>
      exact generate_mask_no_calcT2 C p (if a.save = "" then p else a.save)
        (tissue_strs_of a) a.ext NUM_ECHOS vol r h

theorem parse_args_t2_flow_never_invoked_witness :
    (parse_args demoCollab demoFS demoArgs).2 =
      Except.error Err.typeErrorBoolNotCallable :=
  (parse_args_t2_flow_never_invoked demoCollab demoFS demoArgs "/data"
    demoMasks rfl rfl rfl rfl (by decide)).1

/-- C2 counterexample: an invocation with `--t2` set and `--dess` unset
that omits the dicom path fails with the missing-argument ValueError, not
the configuration error naming the conflicting flags. -/
theorem parse_args_t2_without_dess_counterexample :
    noDicomArgs.t2 = true ∧ noDicomArgs.dess = false ∧
    (parse_args demoCollab demoFS noDicomArgs).2 =
      Except.error Err.valueErrorNoDicom ∧
    Err.valueErrorNoDicom ≠ Err.valueErrorT2WithoutDess :=
  ⟨rfl, rfl, rfl, by decide⟩

/-- C2 (amended): with `--t2` set and `--dess` unset the run always fails
before any DICOM loading is attempted; when the dicom path is provided and
is a directory, the failure is the configuration ValueError naming the
conflicting flags. -/
theorem parse_args_t2_without_dess (C : Collab) (isdir : String → Bool)
    (a : Args) (hdess : a.dess = false) (ht2 : a.t2 = true) :
    (∀ pth e, Event.loadDicom pth e ∉ (parse_args C isdir a).1) ∧
    (∃ err, (parse_args C isdir a).2 = Except.error err) ∧
    (∀ p, a.dicom = some p → isdir p = true →
      (parse_args C isdir a).2 = Except.error Err.valueErrorT2WithoutDess) := by
  refine ⟨?_, ?_, ?_⟩
  · intro pth e h
    rcases hd : a.dicom with _ | p
    · rcases hg : a.gpu with _ | g <;> simp [parse_args, hd, hg] at h
    · rcases hdir : isdir p <;> rcases hg : a.gpu with _ | g <;>
        rcases hs : isdir (if a.save = "" then p else a.save) <;>
        simp [parse_args, hd, hdir, hdess, ht2, hg, hs] at h
  · rcases hd : a.dicom with _ | p
    · exact ⟨Err.valueErrorNoDicom, by simp [parse_args, hd]⟩
    · rcases hdir : isdir p
      · exact ⟨Err.notADirectoryError p, by simp [parse_args, hd, hdir]⟩
      · exact ⟨Err.valueErrorT2WithoutDess,
          by simp [parse_args, hd, hdir, hdess, ht2]⟩
  · intro p hd hdir
    simp [parse_args, hd, hdir, hdess, ht2]

theorem parse_args_t2_without_dess_witness :
    (parse_args demoCollab demoFS t2OnlyArgs).2 =
      Except.error Err.valueErrorT2WithoutDess :=
  (parse_args_t2_without_dess demoCollab demoFS t2OnlyArgs rfl rfl).2.2
    "/data" rfl (by decide)

/-- C3: a provided dicom path that is not an existing directory fails with
`NotADirectoryError` (a different error from the missing-argument
ValueError), and no save directory is created. -/
theorem parse_args_bad_dicom_dir (C : Collab) (isdir : String → Bool)
    (a : Args) (p : String) (hd : a.dicom = some p)
    (hdir : isdir p = false) :
    (parse_args C isdir a).2 = Except.error (Err.notADirectoryError p) ∧
    (∀ q, Event.makedirs q ∉ (parse_args C isdir a).1) ∧
    Err.notADirectoryError p ≠ Err.valueErrorNoDicom := by
  refine ⟨by simp [parse_args, hd, hdir], ?_, by simp⟩
  intro q h
  rcases hg : a.gpu with _ | g <;> simp [parse_args, hd, hdir, hg] at h

theorem parse_args_bad_dicom_dir_witness :
    (parse_args demoCollab demoFS badDirArgs).2 =
      Except.error (Err.notADirectoryError "/nope") :=
  (parse_args_bad_dicom_dir demoCollab demoFS badDirArgs "/nope" rfl
    (by decide)).1

/-- C8: when the dicom path is valid, the resolved save path does not
exist, the flag combination passes validation and mask generation
completes, `parse_args` creates the save directory and the files written
over the whole run are exactly one `<save_path>/<tissue>.tiff` per
requested tissue, in request order. -/
theorem parse_args_creates_save_dir_and_writes_exactly (C : Collab)
    (isdir : String → Bool) (a : Args) (p : String)
    (ms : List (String × Volume)) (hd : a.dicom = some p)
    (hdir : isdir p = true)
    (hsave : isdir (if a.save = "" then p else a.save) = false)
    (hconf : a.t2 = true → a.dess = true)
    (hok : (generate_mask C p (if a.save = "" then p else a.save)
      (tissue_strs_of a) a.ext (if a.dess then NUM_ECHOS else 1)).2 =
      GMResult.ok ms) :
    Event.makedirs (if a.save = "" then p else a.save) ∈
      (parse_args C isdir a).1 ∧
    writtenPaths (parse_args C isdir a).1 =
      (tissue_strs_of a).map (fun t =>
        joinPath (if a.save = "" then p else a.save) (t ++ ".tiff")) := by
  have hnc : ¬(a.dess = false ∧ a.t2 = true) := by
    rintro ⟨h1, h2⟩
    rw [hconf h2] at h1
    exact absurd h1 (by simp)
  have hwp := (generate_mask_ok_spec C p (if a.save = "" then p else a.save)
    (tissue_strs_of a) a.ext (if a.dess then NUM_ECHOS else 1) ms hok).2
  have htr : (parse_args C isdir a).1 =
      (match a.gpu with
        | some g => [Event.setEnvCudaVisibleDevices g]
        | none => [])
      ++ [Event.makedirs (if a.save = "" then p else a.save)]
      ++ [Event.setBatchSize a.batch_size]
      ++ (generate_mask C p (if a.save = "" then p else a.save)
          (tissue_strs_of a) a.ext (if a.dess then NUM_ECHOS else 1)).1 := by
    by_cases hc : a.dess = true ∧ a.t2 = true
    · have hok2 := hok
      simp only [hc.1, if_true] at hok2
      simp [parse_args, hd, hdir, hsave, hnc, hok2, hc]
    · simp [parse_args, hd, hdir, hsave, hnc, hok, hc]
  constructor
  · rw [htr]; simp
  · rw [htr, writtenPaths_append, writtenPaths_append, writtenPaths_append,
      hwp]
    rcases hg : a.gpu with _ | g <;> simp [writtenPaths, hg]

theorem parse_args_creates_save_dir_and_writes_exactly_witness :
    Event.makedirs "/out" ∈ (parse_args demoCollab demoFS demoArgs).1 :=
  (parse_args_creates_save_dir_and_writes_exactly demoCollab demoFS demoArgs
    "/data" demoMasks rfl rfl (by decide) (fun _ => rfl) (by decide)).1

/-- C9: with a valid dicom path, a nonexistent save path, `--t2` set and
`--dess` unset, the save directory is still created (the makedirs event is
in the trace) even though the run then fails with the configuration error:
the T2-without-DESS check runs only after save-path resolution and
directory creation. -/
theorem parse_args_makedirs_then_config_error (C : Collab)
    (isdir : String → Bool) (a : Args) (p : String)
    (hd : a.dicom = some p) (hdir : isdir p = true)
    (hsave : isdir (if a.save = "" then p else a.save) = false)
    (hdess : a.dess = false) (ht2 : a.t2 = true) :
    Event.makedirs (if a.save = "" then p else a.save) ∈
      (parse_args C isdir a).1 ∧
    (parse_args C isdir a).2 = Except.error Err.valueErrorT2WithoutDess := by
  constructor
  · rcases hg : a.gpu with _ | g <;>
      simp [parse_args, hd, hdir, hsave, hdess, ht2, hg]
  · simp [parse_args, hd, hdir, hsave, hdess, ht2]

theorem parse_args_makedirs_then_config_error_witness :
    Event.makedirs "/out" ∈ (parse_args demoCollab demoFS t2SaveArgs).1 :=
  (parse_args_makedirs_then_config_error demoCollab demoFS t2SaveArgs
    "/data" rfl rfl (by decide) rfl rfl).1

end GenerateMask
